import Mathlib

/-!
Verification development for the simple-windows-backup-tool repository
(`backup.py`, `notification.py`).  The Python code is shallowly embedded:
pure fragments become Lean functions over `String`/`List`/`Int`, the
filesystem and Win32 effects of a run are recorded in explicit result
records, and exceptions become `Except` values or explicit fault-injection
parameters.  Every definition is translated from the source files; the one
definition written from the specification text instead is clearly marked.
-/

/-! ## Character and string primitives

Paths are Windows path strings.  Python compares strings by code point,
so the lexicographic order used by `sorted(...)` is embedded directly on
the character lists underlying `String`. -/

/-- A Windows path separator (`ntpath.sep` and `ntpath.altsep`). -/
def isSep (c : Char) : Bool := c = '\\' || c = '/'

/-- Code-point lexicographic `<=` on character lists: Python's `str` order
as used by `sorted(rotation_file.backups_list)` in `backup.py`. -/
def strLeChars : List Char → List Char → Bool
  | [], _ => true
  | _ :: _, [] => false
  | a :: as, b :: bs =>
    if a.toNat < b.toNat then true
    else if b.toNat < a.toNat then false
    else strLeChars as bs

/-- Python `<=` on strings (code-point lexicographic). -/
def strLe (a b : String) : Bool := strLeChars a.data b.data

/-- Python `s.startswith(p)` on character lists. -/
def startsWithChars : List Char → List Char → Bool
  | _, [] => true
  | [], _ :: _ => false
  | a :: as, b :: bs => a = b && startsWithChars as bs

/-- Python `path.startswith(source_dir)` as used in `Backup.backup`. -/
def strStartsWith (s pre : String) : Bool := startsWithChars s.data pre.data

/-- Insert a string into an already-sorted list, keeping it sorted
(the order is total and antisymmetric, so the result of sorting is the
unique sorted permutation — the same list Python's `sorted` returns). -/
def insertStr (x : String) : List String → List String
  | [] => [x]
  | y :: ys => if strLe x y then x :: y :: ys else y :: insertStr x ys

/-- `sorted(...)` from `backup.py` line 262: the sorted permutation of the
archive-name list under code-point lexicographic order. -/
def sortStrings : List String → List String
  | [] => []
  | x :: xs => insertStr x (sortStrings xs)

/-! ## Path functions (`os.path` collaborators and `Utilities`)

`backup.py` calls `os.path.isabs`, `os.path.split` and `os.path.join`
from the Python standard library (Windows `ntpath` flavour).  They are
embedded for the path shapes this program produces; the UNC
(`//host/share`) special case of `ntpath.splitdrive` is not modelled. -/

/-- `ntpath.splitdrive` without the UNC case: when the second character is
a colon the first two characters are the drive designator. -/
def splitdriveChars (s : List Char) : List Char × List Char :=
  match s with
  | a :: b :: rest => if b = ':' then ([a, b], rest) else ([], a :: b :: rest)
  | other => ([], other)

/-- `ntpath.isabs`: strip the drive designator, then test whether the
remainder begins with a path separator. -/
def isabs (s : String) : Bool :=
  match (splitdriveChars s.data).2 with
  | c :: _ => isSep c
  | [] => false

/-- Python `path.replace(":", "")`: remove every colon. -/
def stripColons (s : String) : String := ⟨s.data.filter (fun c => c ≠ ':')⟩

/-- `Utilities.convert_to_directory_path` (`backup.py` lines 71-88): an
absolute path has every `':'` removed; a non-absolute path yields `None`. -/
def convert_to_directory_path (path : String) : Option String :=
  if isabs path then some (stripColons path) else none

/-- Strip trailing path separators (`head.rstrip(seps)` in `ntpath.split`). -/
def rstripSeps (l : List Char) : List Char := (l.reverse.dropWhile isSep).reverse

/-- `ntpath.split` (as `os.path.split` in `Backup.backup`): split off the
drive, cut after the last separator, strip the head's trailing separators
unless that would empty it, and re-attach the drive. -/
def splitPath (s : String) : String × String :=
  let dp := splitdriveChars s.data
  let tail := (dp.2.reverse.takeWhile (fun c => !(isSep c))).reverse
  let head := dp.2.take (dp.2.length - tail.length)
  let hs := rstripSeps head
  (⟨dp.1 ++ (if hs.isEmpty then head else hs)⟩, ⟨tail⟩)

/-- `ntpath.join(a, b)` for the call sites in `Backup.backup`, where `b`
is a drive-stripped relative namespace: a `b` rooted at a separator
discards `a`'s path part (simplified to returning `b`); otherwise the two
parts are glued with a single backslash when `a` does not already end in
a separator.  (Drive handling of the second argument is not needed here
because `b` never contains a colon.) -/
def joinPath (a b : String) : String :=
  if (b.data.head?.map isSep).getD false then b
  else if a.data.isEmpty then b
  else if isSep (a.data.getLastD ' ') then a ++ b
  else a ++ "\\" ++ b

/-- A path string carrying a `X:` drive designator (second character a
colon): joining such a path under another root would re-root the result
on that volume. -/
def isDriveQualified (s : String) : Bool :=
  match s.data with
  | _ :: b :: _ => b = ':'
  | _ => false

/-! ## Mirror Invoker (`Backup._backup_object`) -/

/-- One mirror invocation assembled by `Backup.backup`: the source
directory, destination, optional single filename, and the exclusion lists
scoped to this source (passed verbatim after `/XD` and `/XF`). -/
structure MirrorCall where
  source : String
  destination : String
  filename : Option String
  excludeDirs : List String
  excludeFiles : List String
  deriving Repr, DecidableEq

/-- The robocopy argument list built by `Backup._backup_object`
(`backup.py` lines 190-220).  Empty exclusion lists are falsy in Python,
so their flag is omitted. -/
def robocopyCommand (c : MirrorCall) (dryrun : Bool) : List String :=
  ["robocopy", c.source, c.destination]
    ++ (match c.filename with | some f => [f] | none => ["/MIR"])
    ++ ["/Z", "/NP", "/NC", "/NDL", "/NJH", "/W:10", "/R:2", "/XJ"]
    ++ (match c.filename with
        | some _ => []
        | none =>
          (if c.excludeDirs.isEmpty then [] else "/XD" :: c.excludeDirs)
            ++ (if c.excludeFiles.isEmpty then [] else "/XF" :: c.excludeFiles))
    ++ (if dryrun then ["/L"] else [])

/-- Exit-status mapping of `Backup._backup_object` (`backup.py` lines
228-234): `returncode >= 8` reports failure, anything below reports
success. -/
def backupObjectSuccess (returncode : Int) : Bool :=
  if 8 ≤ returncode then false else true

/-! ## Backup Orchestrator (`Backup.backup`)

The external robocopy outcome of each invocation is a parameter
`mirror : MirrorCall → Bool` (the value `_backup_object` returns for that
call).  A run yields the list of mirror invocations actually made and the
final success boolean of `Backup.backup`. -/

/-- Processing of one source directory (`backup.py` lines 292-301):
skip it when `convert_to_directory_path` yields `None` (or the falsy
empty string), otherwise build the mirror call with the exclusion lists
restricted to entries that start with this source. -/
def processDir (excludeDirs excludeFiles : List String) (backupDirFull : String)
    (src : String) : Option MirrorCall :=
  match convert_to_directory_path src with
  | none => none
  | some p =>
    if p = "" then none
    else
      some { source := src
             destination := joinPath backupDirFull p
             filename := none
             excludeDirs := excludeDirs.filter (fun q => strStartsWith q src)
             excludeFiles := excludeFiles.filter (fun q => strStartsWith q src) }

/-- Processing of one source file (`backup.py` lines 306-315): split into
parent directory and filename, skip when the parent is not absolute,
otherwise mirror that single file (no exclusions apply). -/
def processFile (backupDirFull : String) (srcFile : String) : Option MirrorCall :=
  match convert_to_directory_path (splitPath srcFile).1 with
  | none => none
  | some p =>
    if p = "" then none
    else
      some { source := (splitPath srcFile).1
             destination := joinPath backupDirFull p
             filename := some (splitPath srcFile).2
             excludeDirs := []
             excludeFiles := [] }

/-- `Backup.backup` (`backup.py` lines 290-326) without the rotation and
notification steps (modelled separately): the mirror calls made, and the
success boolean, which demands every configured directory and every
configured file to have been processed and mirrored successfully. -/
def backupRun (sourceDirs sourceFiles excludeDirs excludeFiles : List String)
    (backupDirFull : String) (mirror : MirrorCall → Bool) :
    List MirrorCall × Bool :=
  let dirCalls := sourceDirs.filterMap (processDir excludeDirs excludeFiles backupDirFull)
  let fileCalls := sourceFiles.filterMap (processFile backupDirFull)
  let sd := (dirCalls.filter mirror).length
  let sf := (fileCalls.filter mirror).length
  (dirCalls ++ fileCalls, sd == sourceDirs.length && sf == sourceFiles.length)

/-- Process exit code of `__main__` for a run that raised no exception:
`0 if bck.backup() else 1`. -/
def exitCode (success : Bool) : Nat := if success then 0 else 1

/-! ## Notifier (`Backup._notify` and `notification.WindowsBalloonTip`)

Each Win32 API call of `WindowsBalloonTip.__init__` may raise; the fault
pattern of one run is a record of booleans (`true` = that call raises).
Only `LoadImage` is wrapped in `try/except` in the source (falling back
to `LoadIcon`); every other failure propagates. -/

structure Win32Faults where
  registerClass : Bool
  createWindow : Bool
  updateWindow : Bool
  loadImage : Bool
  loadIcon : Bool
  shellNotifyAdd : Bool
  shellNotifyModify : Bool
  destroyWindow : Bool
  deriving Repr, DecidableEq

/-- `WindowsBalloonTip.__init__` (`notification.py` lines 14-43) under a
fault pattern: the `LoadIcon` fallback only runs (and can only raise)
when `LoadImage` raised; every other raising call aborts the
constructor. -/
def windowsBalloonTip (f : Win32Faults) : Except String Unit :=
  if f.registerClass then .error "RegisterClass"
  else if f.createWindow then .error "CreateWindow"
  else if f.updateWindow then .error "UpdateWindow"
  else if f.loadImage && f.loadIcon then .error "LoadIcon"
  else if f.shellNotifyAdd then .error "Shell_NotifyIcon NIM_ADD"
  else if f.shellNotifyModify then .error "Shell_NotifyIcon NIM_MODIFY"
  else if f.destroyWindow then .error "DestroyWindow"
  else .ok ()

/-- `Backup._notify` (`backup.py` lines 329-332): the popup is only shown
when notification is enabled, and nothing catches its exceptions. -/
def notifyCall (notification : Bool) (f : Win32Faults) : Except String Unit :=
  if notification then windowsBalloonTip f else .ok ()

/-- `Backup.backup`'s tail (`backup.py` lines 317-326): the run's boolean
is computed, `_notify` is called, and an exception raised there escapes
the whole `backup()` call. -/
def backupAndNotify (sourceDirs sourceFiles excludeDirs excludeFiles : List String)
    (backupDirFull : String) (mirror : MirrorCall → Bool)
    (notification : Bool) (f : Win32Faults) : Except String Bool :=
  match notifyCall notification f with
  | .ok _ => .ok (backupRun sourceDirs sourceFiles excludeDirs excludeFiles backupDirFull mirror).2
  | .error e => .error e

/-- The `__main__` guard (`backup.py` lines 361-368): an uncaught
exception becomes exit code 1, otherwise the boolean maps to 0 / 1. -/
def exitCodeTop (r : Except String Bool) : Nat :=
  match r with
  | .ok b => exitCode b
  | .error _ => 1

/-! ## Rotation Manager (`Backup._rotate`, `RotationFile`)

`_rotate` reads the clock, loads or seeds `rotation.json`, decides whether
rotation is due, and on a due rotation evicts oldest archives, moves the
current generation aside and rewrites the state file inside
`try/finally`.  The filesystem interactions of one call are recorded in a
`RotateRun`; a possible exception inside the `try` body is injected
through a `FailPoint`. -/

/-- Contents of `rotation.json` (`RotationFile.date`,
`RotationFile.backups_list`). -/
structure RotationFileData where
  date : Int
  backups_list : List String
  deriving Repr, DecidableEq

/-- The rotation-relevant part of the configuration, after the clamping
in `_configure_backup_script_from_file`. -/
structure RotationConfig where
  rotation_enabled : Bool
  dryrun : Bool
  rotation_interval : Int
  rotation_max_saved : Nat
  backup_name : String
  deriving Repr, DecidableEq

/-- `_configure_backup_script_from_file` (`backup.py` lines 161-169):
interval and max-saved are clamped with `max(·, 1)`. -/
def mkRotationConfig (enabled dryrun : Bool) (interval maxSavedRaw : Int)
    (name : String) : RotationConfig :=
  { rotation_enabled := enabled
    dryrun := dryrun
    rotation_interval := max interval 1
    rotation_max_saved := (max maxSavedRaw 1).toNat
    backup_name := name }

/-- `datetime.utcnow().replace(second=0, microsecond=0).timestamp()`
(`backup.py` line 241): the clock reading floored to the minute. -/
def truncToMinute (t : Int) : Int := 60 * t.fdiv 60

/-- `(current_datetime - saved_datetime).days` (`backup.py` line 256):
Python's `timedelta.days` is the floor of the raw duration in seconds
divided by 86400. -/
def daysElapsed (saved now : Int) : Int := (now - saved).fdiv 86400

/-- Modelled from the spec: "calendar-day difference between truncated
(minute-resolution) UTC timestamps … difference in whole days via date
subtraction" — the difference of the UTC day numbers of the two
timestamps.  Stated only to compare against `daysElapsed`, the quantity
the code computes. -/
def specCalendarDayDiff (saved now : Int) : Int :=
  now.fdiv 86400 - saved.fdiv 86400

/-- `f"{self.backup_name}_{now_time_epoch}"` (`backup.py` line 270). -/
def newArchiveName (backupName : String) (now : Int) : String :=
  backupName ++ "_" ++ toString now

/-- The eviction loop of `_rotate` (`backup.py` lines 264-268):
`while len(backups) >= rotation_max_saved: backups.pop(0)` (with a
best-effort `rmtree` per popped name).  Returns the remaining list and
the popped names in order.  (For the clamped `rotation_max_saved >= 1`
the Python loop terminates and agrees with this function.) -/
def evictLoop (maxSaved : Nat) : List String → List String × List String
  | [] => ([], [])
  | b :: rest =>
    if maxSaved ≤ rest.length + 1 then
      ((evictLoop maxSaved rest).1, b :: (evictLoop maxSaved rest).2)
    else (b :: rest, [])

/-- Number of iterations the eviction loop performs on a list of the
given length. -/
def evictCount (maxSaved len : Nat) : Nat :=
  if maxSaved ≤ len then len + 1 - maxSaved else 0

/-- Fault injection for the `try` body of `_rotate` (`backup.py` lines
263-277): an exception after `k` completed eviction iterations, an
exception while moving the generation directory aside, or no
exception. -/
inductive FailPoint where
  | duringEvict (k : Nat)
  | duringMove
  | complete
  deriving Repr, DecidableEq

/-- Observable behaviour of one `_rotate` call: whether `rotation.json`
was loaded, what was written to it (the `finally` write, or the seed
write), which archive names the eviction loop popped (each with a
best-effort directory delete), the attempted generation move, and
whether an exception escaped the call. -/
structure RotateRun where
  readState : Bool
  written : Option RotationFileData
  evicted : List String
  movedTo : Option String
  raised : Bool
  deriving Repr, DecidableEq

/-- `Backup._rotate` (`backup.py` lines 237-277).  `fileExists` and
`fileData` describe `rotation.json` before the call; `now` is the
minute-truncated clock reading; `fp` injects an exception into the `try`
body.  On an interruption after `k` evictions the in-memory list is the
sorted list with its first `k` elements popped, and the `finally` block
writes exactly that list with the new timestamp. -/
def rotate (cfg : RotationConfig) (fileExists : Bool) (fileData : RotationFileData)
    (now : Int) (fp : FailPoint) : RotateRun :=
  if !cfg.rotation_enabled || cfg.dryrun then
    { readState := false, written := none, evicted := [], movedTo := none, raised := false }
  else if !fileExists then
    { readState := false, written := some { date := now, backups_list := [] }
      evicted := [], movedTo := none, raised := false }
  else if daysElapsed fileData.date now < cfg.rotation_interval then
    { readState := true
      written := some { date := now, backups_list := fileData.backups_list }
      evicted := [], movedTo := none, raised := false }
  else
    let backups := sortStrings fileData.backups_list
    match fp with
    | .duringEvict k =>
      let j := min k (evictCount cfg.rotation_max_saved backups.length)
      { readState := true
        written := some { date := now, backups_list := backups.drop j }
        evicted := backups.take j, movedTo := none, raised := true }
    | .duringMove =>
      { readState := true
        written := some { date := now, backups_list := (evictLoop cfg.rotation_max_saved backups).1 }
        evicted := (evictLoop cfg.rotation_max_saved backups).2
        movedTo := none, raised := true }
    | .complete =>
      { readState := true
        written := some { date := now
                          backups_list := (evictLoop cfg.rotation_max_saved backups).1
                            ++ [newArchiveName cfg.backup_name now] }
        evicted := (evictLoop cfg.rotation_max_saved backups).2
        movedTo := some (newArchiveName cfg.backup_name now), raised := false }

/-! ## Supporting lemmas -/

theorem strLeChars_refl (l : List Char) : strLeChars l l = true := by
  induction l with
  | nil => rfl
  | cons a as ih => simp [strLeChars, ih]

theorem strLe_refl (s : String) : strLe s s = true := strLeChars_refl s.data

theorem strLeChars_total (a b : List Char) :
    strLeChars a b = true ∨ strLeChars b a = true := by
  induction a generalizing b with
  | nil => left; cases b <;> rfl
  | cons x xs ih =>
    cases b with
    | nil => right; rfl
    | cons y ys =>
      rcases Nat.lt_trichotomy x.toNat y.toNat with h | h | h
      · left; simp [strLeChars, h]
      · rcases ih ys with hr | hr
        · left; simp [strLeChars, h, hr]
        · right; simp [strLeChars, h.symm, hr]
      · right; simp [strLeChars, h]

theorem strLe_total (a b : String) : strLe a b = true ∨ strLe b a = true :=
  strLeChars_total a.data b.data

theorem strLeChars_cons_le {x y : Char} {xs ys : List Char}
    (h : strLeChars (x :: xs) (y :: ys) = true) : x.toNat ≤ y.toNat := by
  simp only [strLeChars] at h
  split_ifs at h with h1 h2
  · omega
  · omega

theorem strLeChars_cons_rec {x y : Char} {xs ys : List Char}
    (h : strLeChars (x :: xs) (y :: ys) = true) (heq : x.toNat = y.toNat) :
    strLeChars xs ys = true := by
  simp only [strLeChars] at h
  split_ifs at h with h1 h2
  · omega
  · exact h

theorem strLeChars_trans : ∀ a b c : List Char, strLeChars a b = true →
    strLeChars b c = true → strLeChars a c = true
  | [], _, c, _, _ => by cases c <;> rfl
  | x :: xs, [], _, hab, _ => by simp [strLeChars] at hab
  | _ :: _, _ :: _, [], _, hbc => by simp [strLeChars] at hbc
  | x :: xs, y :: ys, z :: zs, hab, hbc => by
    have h1 := strLeChars_cons_le hab
    have h2 := strLeChars_cons_le hbc
    simp only [strLeChars]
    split_ifs with g1 g2
    · rfl
    · omega
    · have hx : x.toNat = y.toNat := by omega
      have hy : y.toNat = z.toNat := by omega
      exact strLeChars_trans xs ys zs (strLeChars_cons_rec hab hx)
        (strLeChars_cons_rec hbc hy)

theorem strLe_trans {a b c : String} (hab : strLe a b = true)
    (hbc : strLe b c = true) : strLe a c = true :=
  strLeChars_trans a.data b.data c.data hab hbc

theorem mem_insertStr {z x : String} {l : List String} :
    z ∈ insertStr x l ↔ z = x ∨ z ∈ l := by
  induction l with
  | nil => simp [insertStr]
  | cons y ys ih =>
    simp only [insertStr]
    split_ifs
    · simp [List.mem_cons]
    · simp only [List.mem_cons, ih]; tauto

theorem insertStr_perm (x : String) (l : List String) :
    (insertStr x l).Perm (x :: l) := by
  induction l with
  | nil => exact List.Perm.refl _
  | cons y ys ih =>
    simp only [insertStr]
    split_ifs
    · exact List.Perm.refl _
    · exact (ih.cons y).trans (List.Perm.swap x y ys)

theorem sortStrings_perm (l : List String) : (sortStrings l).Perm l := by
  induction l with
  | nil => exact List.Perm.refl _
  | cons x xs ih => exact (insertStr_perm x (sortStrings xs)).trans (ih.cons x)

theorem length_sortStrings (l : List String) :
    (sortStrings l).length = l.length :=
  (sortStrings_perm l).length_eq

theorem pairwise_insertStr {x : String} {l : List String}
    (h : l.Pairwise (fun a b => strLe a b = true)) :
    (insertStr x l).Pairwise (fun a b => strLe a b = true) := by
  induction l with
  | nil => simp [insertStr]
  | cons y ys ih =>
    rcases List.pairwise_cons.mp h with ⟨hy, hys⟩
    simp only [insertStr]
    split_ifs with hxy
    · refine List.pairwise_cons.mpr ⟨?_, h⟩
      intro z hz
      rcases List.mem_cons.mp hz with rfl | hz
      · exact hxy
      · exact strLe_trans hxy (hy z hz)
    · refine List.pairwise_cons.mpr ⟨?_, ih hys⟩
      intro z hz
      rcases mem_insertStr.mp hz with rfl | hz
      · rcases strLe_total z y with hzy | hyz
        · exact absurd hzy hxy
        · exact hyz
      · exact hy z hz

theorem sortStrings_pairwise (l : List String) :
    (sortStrings l).Pairwise (fun a b => strLe a b = true) := by
  induction l with
  | nil => exact List.Pairwise.nil
  | cons x xs ih => exact pairwise_insertStr ih

theorem sortStrings_head_min {l : List String} {m : String} {rest : List String}
    (hs : sortStrings l = m :: rest) : ∀ x ∈ l, strLe m x = true := by
  intro x hx
  have hmem : x ∈ m :: rest := by
    rw [← hs]
    exact (sortStrings_perm l).mem_iff.mpr hx
  rcases List.mem_cons.mp hmem with rfl | hxr
  · exact strLe_refl x
  · have hp := sortStrings_pairwise l
    rw [hs] at hp
    exact (List.pairwise_cons.mp hp).1 x hxr

theorem evictLoop_eq (m : Nat) (l : List String) :
    evictLoop m l = (l.drop (evictCount m l.length), l.take (evictCount m l.length)) := by
  induction l with
  | nil => simp [evictLoop, evictCount]
  | cons b rest ih =>
    simp only [evictLoop, List.length_cons]
    split_ifs with h
    · rw [ih]
      by_cases hml : m ≤ rest.length
      · have h1 : evictCount m rest.length = rest.length + 1 - m := by
          simp [evictCount, hml]
        have h2 : evictCount m (rest.length + 1) = (rest.length + 1 - m) + 1 := by
          simp only [evictCount, if_pos h]; omega
        rw [h1, h2]
        simp
      · have h1 : evictCount m rest.length = 0 := by
          simp [evictCount, hml]
        have h2 : evictCount m (rest.length + 1) = 1 := by
          simp only [evictCount, if_pos h]; omega
        rw [h1, h2]
        simp
    · have h2 : evictCount m (rest.length + 1) = 0 := by
        simp [evictCount, h]
      rw [h2]
      simp

theorem length_filterMap_lt {α β : Type} (f : α → Option β) {l : List α} {x : α}
    (hx : x ∈ l) (hf : f x = none) : (l.filterMap f).length < l.length := by
  induction l with
  | nil => cases hx
  | cons a as ih =>
    rcases List.mem_cons.mp hx with rfl | hmem
    · rw [List.filterMap_cons, hf]
      have := List.length_filterMap_le f as
      simp only [List.length_cons]
      omega
    · rw [List.filterMap_cons]
      cases hfa : f a with
      | none =>
        have := ih hmem
        simp only [List.length_cons]
        omega
      | some b =>
        have := ih hmem
        simp only [List.length_cons, List.length_cons]
        omega

/-- Reduction of `rotate` on a due rotation that completes without
exception. -/
theorem rotate_due_complete (cfg : RotationConfig) (fd : RotationFileData) (now : Int)
    (hen : cfg.rotation_enabled = true) (hdry : cfg.dryrun = false)
    (hdue : cfg.rotation_interval ≤ daysElapsed fd.date now) :
    rotate cfg true fd now .complete =
      { readState := true
        written := some { date := now, backups_list :=
          (evictLoop cfg.rotation_max_saved (sortStrings fd.backups_list)).1
            ++ [newArchiveName cfg.backup_name now] }
        evicted := (evictLoop cfg.rotation_max_saved (sortStrings fd.backups_list)).2
        movedTo := some (newArchiveName cfg.backup_name now)
        raised := false } := by
  unfold rotate
  rw [hen, hdry, if_neg, if_neg, if_neg]
  · exact not_lt.mpr hdue
  · simp
  · simp

/-- Reduction of `rotate` on a due rotation interrupted after `k`
eviction iterations. -/
theorem rotate_due_duringEvict (cfg : RotationConfig) (fd : RotationFileData) (now : Int)
    (k : Nat) (hen : cfg.rotation_enabled = true) (hdry : cfg.dryrun = false)
    (hdue : cfg.rotation_interval ≤ daysElapsed fd.date now) :
    rotate cfg true fd now (.duringEvict k) =
      { readState := true
        written := some { date := now, backups_list :=
          ((sortStrings fd.backups_list).drop
            (min k (evictCount cfg.rotation_max_saved (sortStrings fd.backups_list).length))) }
        evicted := ((sortStrings fd.backups_list).take
          (min k (evictCount cfg.rotation_max_saved (sortStrings fd.backups_list).length)))
        movedTo := none
        raised := true } := by
  unfold rotate
  rw [hen, hdry, if_neg, if_neg, if_neg]
  · exact not_lt.mpr hdue
  · simp
  · simp

/-- Reduction of `rotate` on a due rotation whose generation move
raises. -/
theorem rotate_due_duringMove (cfg : RotationConfig) (fd : RotationFileData) (now : Int)
    (hen : cfg.rotation_enabled = true) (hdry : cfg.dryrun = false)
    (hdue : cfg.rotation_interval ≤ daysElapsed fd.date now) :
    rotate cfg true fd now .duringMove =
      { readState := true
        written := some { date := now, backups_list :=
          (evictLoop cfg.rotation_max_saved (sortStrings fd.backups_list)).1 }
        evicted := (evictLoop cfg.rotation_max_saved (sortStrings fd.backups_list)).2
        movedTo := none
        raised := true } := by
  unfold rotate
  rw [hen, hdry, if_neg, if_neg, if_neg]
  · exact not_lt.mpr hdue
  · simp
  · simp

/-! ## Claims about the Rotation Manager -/

/-- C1: in the RotationDue state with the loaded list exactly at
`max_saved`, rotation removes exactly one archive — the lexically
smallest name — from the list before appending the new archive name, and
the persisted list length equals `max_saved`. -/
theorem rotate_at_capacity_evicts_smallest (cfg : RotationConfig) (fd : RotationFileData)
    (now : Int) (hen : cfg.rotation_enabled = true) (hdry : cfg.dryrun = false)
    (hms : 1 ≤ cfg.rotation_max_saved)
    (hdue : cfg.rotation_interval ≤ daysElapsed fd.date now)
    (hlen : fd.backups_list.length = cfg.rotation_max_saved) :
    ∃ m l, (rotate cfg true fd now .complete).evicted = [m]
      ∧ m ∈ fd.backups_list
      ∧ (∀ x ∈ fd.backups_list, strLe m x = true)
      ∧ (rotate cfg true fd now .complete).written
          = some { date := now, backups_list := l }
      ∧ l.length = cfg.rotation_max_saved := by
  have hr := rotate_due_complete cfg fd now hen hdry hdue
  have hslen : (sortStrings fd.backups_list).length = cfg.rotation_max_saved := by
    rw [length_sortStrings, hlen]
  cases hs : sortStrings fd.backups_list with
  | nil =>
    rw [hs] at hslen
    simp at hslen
    omega
  | cons m rest =>
    rw [hs] at hslen
    simp only [List.length_cons] at hslen
    have hcnt : evictCount cfg.rotation_max_saved (m :: rest).length = 1 := by
      simp only [evictCount, List.length_cons]
      rw [if_pos (by omega)]
      omega
    have hev : evictLoop cfg.rotation_max_saved (m :: rest) = (rest, [m]) := by
      rw [evictLoop_eq, hcnt]
      simp
    refine ⟨m, rest ++ [newArchiveName cfg.backup_name now], ?_, ?_, ?_, ?_, ?_⟩
    · rw [hr]
      simp only [hs, hev]
    · have : m ∈ sortStrings fd.backups_list := by rw [hs]; exact List.mem_cons_self m rest
      exact (sortStrings_perm fd.backups_list).mem_iff.mp this
    · exact sortStrings_head_min hs
    · rw [hr]
      simp only [hs, hev]
    · simp only [List.length_append, List.length_cons, List.length_nil]
      omega

/-- C1 witness: a concrete due rotation whose list is at capacity. -/
theorem rotate_at_capacity_evicts_smallest_witness :
    (mkRotationConfig true false 30 2 "backup").rotation_enabled = true
    ∧ (mkRotationConfig true false 30 2 "backup").dryrun = false
    ∧ 1 ≤ (mkRotationConfig true false 30 2 "backup").rotation_max_saved
    ∧ (mkRotationConfig true false 30 2 "backup").rotation_interval
        ≤ daysElapsed 0 2592000
    ∧ (["backup_2", "backup_1"] : List String).length
        = (mkRotationConfig true false 30 2 "backup").rotation_max_saved
    ∧ ∃ m l, (rotate (mkRotationConfig true false 30 2 "backup") true
          { date := 0, backups_list := ["backup_2", "backup_1"] } 2592000 .complete).evicted = [m]
      ∧ m ∈ (["backup_2", "backup_1"] : List String)
      ∧ (∀ x ∈ (["backup_2", "backup_1"] : List String), strLe m x = true)
      ∧ (rotate (mkRotationConfig true false 30 2 "backup") true
          { date := 0, backups_list := ["backup_2", "backup_1"] } 2592000 .complete).written
          = some { date := 2592000, backups_list := l }
      ∧ l.length = (mkRotationConfig true false 30 2 "backup").rotation_max_saved :=
  ⟨rfl, rfl, by decide, by decide, by decide,
    rotate_at_capacity_evicts_smallest (mkRotationConfig true false 30 2 "backup")
      { date := 0, backups_list := ["backup_2", "backup_1"] } 2592000
      rfl rfl (by decide) (by decide) (by decide)⟩

/-- C2 counterexample: at minute-truncated timestamps 23:59 of day 0 and
00:00 of day 1 with interval 1, the calendar-day difference (date
subtraction) is 1, so the claim says rotation archives; the code's
`timedelta.days` value is 0 and rotation only refreshes the timestamp,
archiving nothing. -/
theorem daysElapsed_not_calendar_counterexample :
    truncToMinute 86340 = 86340
    ∧ truncToMinute 86400 = 86400
    ∧ specCalendarDayDiff 86340 86400 = 1
    ∧ (mkRotationConfig true false 1 5 "backup").rotation_interval = 1
    ∧ daysElapsed 86340 86400 = 0
    ∧ (rotate (mkRotationConfig true false 1 5 "backup") true
        { date := 86340, backups_list := [] } 86400 .complete).movedTo = none
    ∧ (rotate (mkRotationConfig true false 1 5 "backup") true
        { date := 86340, backups_list := [] } 86400 .complete).written
        = some { date := 86400, backups_list := [] } := by
  decide

/-- C2 (amended): the elapsed quantity gating rotation is Python's
`timedelta.days`, the floor of the raw duration `now - saved` in seconds
divided by 86400 (of minute-truncated timestamps), and a due rotation
archives exactly when that floored quotient reaches the interval. -/
theorem rotate_archives_iff_floored_duration (cfg : RotationConfig)
    (fd : RotationFileData) (now : Int)
    (hen : cfg.rotation_enabled = true) (hdry : cfg.dryrun = false) :
    ((rotate cfg true fd now .complete).movedTo.isSome = true
      ↔ cfg.rotation_interval ≤ (now - fd.date).fdiv 86400)
    ∧ daysElapsed fd.date now = (now - fd.date).fdiv 86400 := by
  refine ⟨⟨?_, ?_⟩, rfl⟩
  · intro h
    by_contra hc
    push_neg at hc
    unfold rotate at h
    rw [hen, hdry, if_neg (by simp), if_neg (by simp)] at h
    rw [if_pos (show daysElapsed fd.date now < cfg.rotation_interval from hc)] at h
    simp at h
  · intro h
    rw [rotate_due_complete cfg fd now hen hdry h]
    rfl

/-- C2 amended witness: a concrete enabled, non-dry-run configuration. -/
theorem rotate_archives_iff_floored_duration_witness :
    (mkRotationConfig true false 1 5 "bkp").rotation_enabled = true
    ∧ (mkRotationConfig true false 1 5 "bkp").dryrun = false
    ∧ (((rotate (mkRotationConfig true false 1 5 "bkp") true
          { date := 0, backups_list := [] } 86400 .complete).movedTo.isSome = true
        ↔ (mkRotationConfig true false 1 5 "bkp").rotation_interval
            ≤ ((86400 : Int) - ({ date := 0, backups_list := [] } : RotationFileData).date).fdiv 86400)
      ∧ daysElapsed ({ date := 0, backups_list := [] } : RotationFileData).date 86400
          = ((86400 : Int) - ({ date := 0, backups_list := [] } : RotationFileData).date).fdiv 86400) :=
  ⟨rfl, rfl, rotate_archives_iff_floored_duration (mkRotationConfig true false 1 5 "bkp")
    { date := 0, backups_list := [] } 86400 rfl rfl⟩

/-- C3: whenever a due rotation's archiving body is interrupted by an
exception — during an eviction or during the generation move — the
`finally` block still writes the rotation state with the new timestamp
(and the list as updated so far) before the exception escapes. -/
theorem rotate_writes_state_despite_exception (cfg : RotationConfig)
    (fd : RotationFileData) (now : Int) (fp : FailPoint)
    (hen : cfg.rotation_enabled = true) (hdry : cfg.dryrun = false)
    (hdue : cfg.rotation_interval ≤ daysElapsed fd.date now) :
    ∃ l, (rotate cfg true fd now fp).written = some { date := now, backups_list := l }
      ∧ (fp ≠ FailPoint.complete → (rotate cfg true fd now fp).raised = true) := by
  cases fp with
  | duringEvict k =>
    rw [rotate_due_duringEvict cfg fd now k hen hdry hdue]
    exact ⟨_, rfl, fun _ => rfl⟩
  | duringMove =>
    rw [rotate_due_duringMove cfg fd now hen hdry hdue]
    exact ⟨_, rfl, fun _ => rfl⟩
  | complete =>
    rw [rotate_due_complete cfg fd now hen hdry hdue]
    exact ⟨_, rfl, fun h => absurd rfl h⟩

/-- C3 witness: a concrete due rotation whose generation move raises. -/
theorem rotate_writes_state_despite_exception_witness :
    (mkRotationConfig true false 30 5 "backup").rotation_enabled = true
    ∧ (mkRotationConfig true false 30 5 "backup").dryrun = false
    ∧ (mkRotationConfig true false 30 5 "backup").rotation_interval ≤ daysElapsed 0 2592000
    ∧ ∃ l, (rotate (mkRotationConfig true false 30 5 "backup") true
          { date := 0, backups_list := ["backup_1"] } 2592000 .duringMove).written
          = some { date := 2592000, backups_list := l }
      ∧ (FailPoint.duringMove ≠ FailPoint.complete →
          (rotate (mkRotationConfig true false 30 5 "backup") true
            { date := 0, backups_list := ["backup_1"] } 2592000 .duringMove).raised = true) :=
  ⟨rfl, rfl, by decide,
    rotate_writes_state_despite_exception (mkRotationConfig true false 30 5 "backup")
      { date := 0, backups_list := ["backup_1"] } 2592000 .duringMove rfl rfl (by decide)⟩

/-- C5: with rotation disabled or in a dry run, `_rotate` does nothing at
all — the rotation-state file is not read, seeded or rewritten, no
archive is evicted and no generation is moved, for every prior state of
the file and every fault pattern. -/
theorem rotate_noop_disabled_or_dryrun (cfg : RotationConfig) (fileExists : Bool)
    (fd : RotationFileData) (now : Int) (fp : FailPoint)
    (h : cfg.rotation_enabled = false ∨ cfg.dryrun = true) :
    rotate cfg fileExists fd now fp =
      { readState := false, written := none, evicted := [], movedTo := none,
        raised := false } := by
  unfold rotate
  rcases h with h | h <;> rw [h] <;> simp

/-- C5 witness: a dry-run configuration with an existing state file. -/
theorem rotate_noop_disabled_or_dryrun_witness :
    ((mkRotationConfig true true 30 5 "backup").rotation_enabled = false
      ∨ (mkRotationConfig true true 30 5 "backup").dryrun = true)
    ∧ rotate (mkRotationConfig true true 30 5 "backup") true
        { date := 0, backups_list := ["backup_1"] } 2592000 .complete
      = { readState := false, written := none, evicted := [], movedTo := none,
          raised := false } :=
  ⟨Or.inr rfl, rotate_noop_disabled_or_dryrun (mkRotationConfig true true 30 5 "backup")
    true { date := 0, backups_list := ["backup_1"] } 2592000 .complete (Or.inr rfl)⟩

/-- C9: for every initial list and clamped `max_saved >= 1`, a due
rotation that completes without exception persists a list of length at
most `max_saved`: the eviction loop pops until strictly below the cap,
then exactly one new name is appended. -/
theorem rotate_written_length_le_max_saved (cfg : RotationConfig)
    (fd : RotationFileData) (now : Int)
    (hen : cfg.rotation_enabled = true) (hdry : cfg.dryrun = false)
    (hms : 1 ≤ cfg.rotation_max_saved)
    (hdue : cfg.rotation_interval ≤ daysElapsed fd.date now) :
    ∀ d, (rotate cfg true fd now .complete).written = some d →
      d.backups_list.length ≤ cfg.rotation_max_saved := by
  intro d hd
  rw [rotate_due_complete cfg fd now hen hdry hdue] at hd
  obtain rfl := Option.some.inj hd
  have hls := length_sortStrings fd.backups_list
  rw [evictLoop_eq]
  simp only [List.length_append, List.length_cons, List.length_nil, List.length_drop]
  unfold evictCount
  split_ifs <;> omega

/-- C9 witness: a due rotation whose loaded list is above the cap. -/
theorem rotate_written_length_le_max_saved_witness :
    (mkRotationConfig true false 30 2 "backup").rotation_enabled = true
    ∧ (mkRotationConfig true false 30 2 "backup").dryrun = false
    ∧ 1 ≤ (mkRotationConfig true false 30 2 "backup").rotation_max_saved
    ∧ (mkRotationConfig true false 30 2 "backup").rotation_interval ≤ daysElapsed 0 2592000
    ∧ ∀ d, (rotate (mkRotationConfig true false 30 2 "backup") true
          { date := 0, backups_list := ["backup_3", "backup_1", "backup_2"] }
          2592000 .complete).written = some d →
        d.backups_list.length ≤ (mkRotationConfig true false 30 2 "backup").rotation_max_saved :=
  ⟨rfl, rfl, by decide, by decide,
    rotate_written_length_le_max_saved (mkRotationConfig true false 30 2 "backup")
      { date := 0, backups_list := ["backup_3", "backup_1", "backup_2"] } 2592000
      rfl rfl (by decide) (by decide)⟩

/-! ## Claims about the Mirror Invoker and Orchestrator -/

/-- C4: a mirror invocation is reported successful exactly when the
external tool's exit status is strictly below 8 — status 7 is success,
status 8 is failure, the boundary is exactly at 8. -/
theorem backupObjectSuccess_boundary_at_eight :
    (∀ rc : Int, backupObjectSuccess rc = decide (rc < 8))
    ∧ backupObjectSuccess 7 = true ∧ backupObjectSuccess 8 = false := by
  refine ⟨fun rc => ?_, by decide, by decide⟩
  unfold backupObjectSuccess
  by_cases h : 8 ≤ rc
  · rw [if_pos h]
    simp
    omega
  · rw [if_neg h]
    simp
    omega

/-- Inversion of `processDir`: a produced mirror call records the source
verbatim, which therefore passed the absolute-path check, and carries
exactly the prefix-filtered exclusion lists. -/
theorem processDir_some {exD exF : List String} {root src : String} {c : MirrorCall}
    (h : processDir exD exF root src = some c) :
    isabs src = true ∧ c.source = src ∧ c.filename = none
    ∧ c.excludeDirs = exD.filter (fun q => strStartsWith q src)
    ∧ c.excludeFiles = exF.filter (fun q => strStartsWith q src) := by
  by_cases h1 : isabs src = true
  · simp only [processDir, convert_to_directory_path, h1, if_true] at h
    split_ifs at h
    simp only [Option.some.injEq] at h
    subst h
    exact ⟨h1, rfl, rfl, rfl, rfl⟩
  · have hc : convert_to_directory_path src = none := by
      simp [convert_to_directory_path, h1]
    simp only [processDir, hc] at h
    simp at h

/-- Inversion of `processFile`: a produced mirror call's source is the
parent directory obtained from `os.path.split`, which passed the
absolute-path check, and no exclusions are attached. -/
theorem processFile_some {root srcFile : String} {c : MirrorCall}
    (h : processFile root srcFile = some c) :
    isabs (splitPath srcFile).1 = true ∧ c.source = (splitPath srcFile).1
    ∧ c.filename = some (splitPath srcFile).2
    ∧ c.excludeDirs = [] ∧ c.excludeFiles = [] := by
  by_cases h1 : isabs (splitPath srcFile).1 = true
  · simp only [processFile, convert_to_directory_path, h1, if_true] at h
    split_ifs at h
    simp only [Option.some.injEq] at h
    subst h
    exact ⟨h1, rfl, rfl, rfl, rfl⟩
  · have hc : convert_to_directory_path (splitPath srcFile).1 = none := by
      simp [convert_to_directory_path, h1]
    simp only [processFile, hc] at h
    simp at h

/-- Every mirror call a run actually makes is for a source that passed
the absolute-path check. -/
theorem backupRun_calls_absolute (sourceDirs sourceFiles excludeDirs excludeFiles :
    List String) (root : String) (mirror : MirrorCall → Bool) :
    ∀ c ∈ (backupRun sourceDirs sourceFiles excludeDirs excludeFiles root mirror).1,
      isabs c.source = true := by
  intro c hc
  rcases List.mem_append.mp hc with h | h
  · rcases List.mem_filterMap.mp h with ⟨src, _, hps⟩
    rcases processDir_some hps with ⟨habs, hsrc, _⟩
    rw [hsrc]
    exact habs
  · rcases List.mem_filterMap.mp h with ⟨f, _, hps⟩
    rcases processFile_some hps with ⟨habs, hsrc, _⟩
    rw [hsrc]
    exact habs

/-- C6: a non-absolute configured source path — a source directory, or
the parent directory of a source file — is never mirrored (every call
made is for a path that passed the absolute check), and its skip makes
the whole run fail with exit code 1. -/
theorem nonabsolute_source_skipped_and_fails_run (sourceDirs sourceFiles excludeDirs
    excludeFiles : List String) (root : String) (mirror : MirrorCall → Bool)
    (h : (∃ src ∈ sourceDirs, isabs src = false)
      ∨ ∃ sf ∈ sourceFiles, isabs (splitPath sf).1 = false) :
    (∀ c ∈ (backupRun sourceDirs sourceFiles excludeDirs excludeFiles root mirror).1,
        isabs c.source = true)
    ∧ (backupRun sourceDirs sourceFiles excludeDirs excludeFiles root mirror).2 = false
    ∧ exitCode (backupRun sourceDirs sourceFiles excludeDirs excludeFiles root mirror).2
        = 1 := by
  have hall := backupRun_calls_absolute sourceDirs sourceFiles excludeDirs excludeFiles
    root mirror
  have hfail :
      (backupRun sourceDirs sourceFiles excludeDirs excludeFiles root mirror).2 = false := by
    unfold backupRun
    rcases h with ⟨src, hmem, habs⟩ | ⟨sf, hmem, habs⟩
    · have hnone : processDir excludeDirs excludeFiles root src = none := by
        simp [processDir, convert_to_directory_path, habs]
      have hlt := length_filterMap_lt (processDir excludeDirs excludeFiles root) hmem hnone
      have hle := List.length_filter_le mirror
        (sourceDirs.filterMap (processDir excludeDirs excludeFiles root))
      simp only [Bool.and_eq_false_iff, beq_eq_false_iff_ne]
      left
      omega
    · have hnone : processFile root sf = none := by
        simp [processFile, convert_to_directory_path, habs]
      have hlt := length_filterMap_lt (processFile root) hmem hnone
      have hle := List.length_filter_le mirror (sourceFiles.filterMap (processFile root))
      simp only [Bool.and_eq_false_iff, beq_eq_false_iff_ne]
      right
      omega
  exact ⟨hall, hfail, by rw [hfail]; rfl⟩

/-- C6 witness: one relative source directory among the configured
sources. -/
theorem nonabsolute_source_skipped_and_fails_run_witness :
    ((∃ src ∈ (["C:\\Users\\me", "Documents\\notes"] : List String), isabs src = false)
      ∨ ∃ sf ∈ ([] : List String), isabs (splitPath sf).1 = false)
    ∧ ((∀ c ∈ (backupRun ["C:\\Users\\me", "Documents\\notes"] [] [] []
          "D:\\bkp\\gen\\me\\host" (fun _ => true)).1, isabs c.source = true)
      ∧ (backupRun ["C:\\Users\\me", "Documents\\notes"] [] [] []
          "D:\\bkp\\gen\\me\\host" (fun _ => true)).2 = false
      ∧ exitCode (backupRun ["C:\\Users\\me", "Documents\\notes"] [] [] []
          "D:\\bkp\\gen\\me\\host" (fun _ => true)).2 = 1) :=
  ⟨Or.inl ⟨"Documents\\notes", by decide, by decide⟩,
    nonabsolute_source_skipped_and_fails_run ["C:\\Users\\me", "Documents\\notes"] [] [] []
      "D:\\bkp\\gen\\me\\host" (fun _ => true)
      (Or.inl ⟨"Documents\\notes", by decide, by decide⟩)⟩

/-- C7: an exclusion entry reaches a source's mirror invocation (the
lists passed after `/XD` / `/XF`) only if it is a lexical descendant of
that source — a prefix match on the normalized path string; entries that
are not descendants are never passed. -/
theorem exclusions_scoped_to_source (sourceDirs sourceFiles excludeDirs excludeFiles :
    List String) (root : String) (mirror : MirrorCall → Bool) (c : MirrorCall)
    (hc : c ∈ (backupRun sourceDirs sourceFiles excludeDirs excludeFiles root mirror).1)
    (e : String) (he : e ∈ c.excludeDirs ∨ e ∈ c.excludeFiles) :
    strStartsWith e c.source = true := by
  rcases List.mem_append.mp hc with h | h
  · rcases List.mem_filterMap.mp h with ⟨src, _, hps⟩
    rcases processDir_some hps with ⟨_, hsrc, _, hd, hf⟩
    rw [hsrc]
    rcases he with he | he
    · rw [hd] at he
      exact (List.mem_filter.mp he).2
    · rw [hf] at he
      exact (List.mem_filter.mp he).2
  · rcases List.mem_filterMap.mp h with ⟨f, _, hps⟩
    rcases processFile_some hps with ⟨_, _, _, hd, hf⟩
    rcases he with he | he
    · rw [hd] at he
      cases he
    · rw [hf] at he
      cases he

/-- C7 witness: a run with one source directory and one unrelated
exclusion entry; the produced call carries only the descendant entry,
which is a prefix match of the source. -/
theorem exclusions_scoped_to_source_witness :
    ({ source := "C:\\src", destination := "D:\\b\\C\\src", filename := none,
       excludeDirs := ["C:\\src\\tmp"], excludeFiles := [] } : MirrorCall)
      ∈ (backupRun ["C:\\src"] [] ["C:\\src\\tmp", "D:\\other"] [] "D:\\b"
          (fun _ => true)).1
    ∧ ("C:\\src\\tmp"
        ∈ ({ source := "C:\\src", destination := "D:\\b\\C\\src", filename := none,
             excludeDirs := ["C:\\src\\tmp"], excludeFiles := [] } : MirrorCall).excludeDirs
      ∨ "C:\\src\\tmp"
        ∈ ({ source := "C:\\src", destination := "D:\\b\\C\\src", filename := none,
             excludeDirs := ["C:\\src\\tmp"], excludeFiles := [] } : MirrorCall).excludeFiles)
    ∧ strStartsWith "C:\\src\\tmp"
        ({ source := "C:\\src", destination := "D:\\b\\C\\src", filename := none,
           excludeDirs := ["C:\\src\\tmp"], excludeFiles := [] } : MirrorCall).source = true :=
  ⟨by decide, Or.inl (by decide),
    exclusions_scoped_to_source ["C:\\src"] [] ["C:\\src\\tmp", "D:\\other"] [] "D:\\b"
      (fun _ => true)
      { source := "C:\\src", destination := "D:\\b\\C\\src", filename := none,
        excludeDirs := ["C:\\src\\tmp"], excludeFiles := [] }
      (by decide) "C:\\src\\tmp" (Or.inl (by decide))⟩

/-- C10: on an absolute input, `convert_to_directory_path` removes every
colon — not only the drive designator's — so the result contains no
colon at all and in particular is never itself drive-qualified (it
cannot re-root a join under the backup destination on another volume);
on a non-absolute input it returns `None`. -/
theorem convert_to_directory_path_strips_colons (p : String) :
    (isabs p = true → ∃ r, convert_to_directory_path p = some r
      ∧ r.data = p.data.filter (fun c => c ≠ ':')
      ∧ r.data.all (fun c => c ≠ ':') = true
      ∧ isDriveQualified r = false)
    ∧ (isabs p = false → convert_to_directory_path p = none) := by
  constructor
  · intro h
    have hall : (stripColons p).data.all (fun c => c ≠ ':') = true := by
      rw [List.all_eq_true]
      intro x hx
      exact (List.mem_filter.mp hx).2
    refine ⟨stripColons p, by simp [convert_to_directory_path, h], rfl, hall, ?_⟩
    unfold isDriveQualified
    rw [List.all_eq_true] at hall
    cases hd : (stripColons p).data with
    | nil => rfl
    | cons a rest =>
      cases rest with
      | nil => rfl
      | cons b rest2 =>
        have hb : b ∈ (stripColons p).data := by
          rw [hd]
          exact List.mem_cons_of_mem a (List.mem_cons_self b rest2)
        have := hall b hb
        simp only [decide_eq_true_eq] at this
        simp [this]
  · intro h
    simp [convert_to_directory_path, h]

/-- C10 witness: an absolute path with a colon beyond the drive
designator, and a relative path. -/
theorem convert_to_directory_path_strips_colons_witness :
    isabs "C:\\a:b" = true
    ∧ (∃ r, convert_to_directory_path "C:\\a:b" = some r
        ∧ r.data = "C:\\a:b".data.filter (fun c => c ≠ ':')
        ∧ r.data.all (fun c => c ≠ ':') = true
        ∧ isDriveQualified r = false)
    ∧ isabs "relative\\path" = false
    ∧ convert_to_directory_path "relative\\path" = none :=
  ⟨by decide, (convert_to_directory_path_strips_colons "C:\\a:b").1 (by decide),
    by decide, (convert_to_directory_path_strips_colons "relative\\path").2 (by decide)⟩

/-! ## Claims about the Notifier -/

/-- C8 counterexample: with notification enabled and an otherwise fully
successful run, a `Shell_NotifyIcon` (display-API) failure inside the
notifier escapes `backup()` — only `LoadImage` is guarded in
`notification.py` — and the top-level handler turns the run into exit
code 1, while the identical run without the fault exits 0. -/
theorem notify_display_failure_propagates :
    (backupRun [] [] [] [] "D:\\bkp" (fun _ => true)).2 = true
    ∧ backupAndNotify [] [] [] [] "D:\\bkp" (fun _ => true) true
        { registerClass := false, createWindow := false, updateWindow := false,
          loadImage := false, loadIcon := false, shellNotifyAdd := true,
          shellNotifyModify := false, destroyWindow := false }
        = Except.error "Shell_NotifyIcon NIM_ADD"
    ∧ exitCodeTop (backupAndNotify [] [] [] [] "D:\\bkp" (fun _ => true) true
        { registerClass := false, createWindow := false, updateWindow := false,
          loadImage := false, loadIcon := false, shellNotifyAdd := true,
          shellNotifyModify := false, destroyWindow := false }) = 1
    ∧ exitCodeTop (backupAndNotify [] [] [] [] "D:\\bkp" (fun _ => true) true
        { registerClass := false, createWindow := false, updateWindow := false,
          loadImage := false, loadIcon := false, shellNotifyAdd := false,
          shellNotifyModify := false, destroyWindow := false }) = 0 :=
  ⟨rfl, rfl, rfl, rfl⟩

/-- C8 (amended): only an icon-loading failure is contained by the
notifier (it falls back to the default application icon); under any
fault pattern in which every Win32 call other than `LoadImage`
succeeds, notification never raises and never alters the run's
outcome. -/
theorem notify_icon_failure_contained (sourceDirs sourceFiles excludeDirs excludeFiles :
    List String) (root : String) (mirror : MirrorCall → Bool) (notification : Bool)
    (f : Win32Faults)
    (hrc : f.registerClass = false) (hcw : f.createWindow = false)
    (huw : f.updateWindow = false) (hli : f.loadIcon = false)
    (hsa : f.shellNotifyAdd = false) (hsm : f.shellNotifyModify = false)
    (hdw : f.destroyWindow = false) :
    backupAndNotify sourceDirs sourceFiles excludeDirs excludeFiles root mirror
        notification f
      = Except.ok (backupRun sourceDirs sourceFiles excludeDirs excludeFiles
          root mirror).2 := by
  unfold backupAndNotify notifyCall windowsBalloonTip
  rw [hrc, hcw, huw, hli, hsa, hsm, hdw]
  cases notification <;> simp

/-- C8 amended witness: the icon fails to load but everything else
succeeds; the run's outcome is unchanged. -/
theorem notify_icon_failure_contained_witness :
    ({ registerClass := false, createWindow := false, updateWindow := false,
       loadImage := true, loadIcon := false, shellNotifyAdd := false,
       shellNotifyModify := false, destroyWindow := false } : Win32Faults).loadImage = true
    ∧ backupAndNotify [] [] [] [] "D:\\bkp" (fun _ => true) true
        { registerClass := false, createWindow := false, updateWindow := false,
          loadImage := true, loadIcon := false, shellNotifyAdd := false,
          shellNotifyModify := false, destroyWindow := false }
      = Except.ok (backupRun [] [] [] [] "D:\\bkp" (fun _ => true)).2 :=
  ⟨rfl, notify_icon_failure_contained [] [] [] [] "D:\\bkp" (fun _ => true) true
    { registerClass := false, createWindow := false, updateWindow := false,
      loadImage := true, loadIcon := false, shellNotifyAdd := false,
      shellNotifyModify := false, destroyWindow := false }
    rfl rfl rfl rfl rfl rfl rfl⟩
